import Mathlib

/-!
Verification of the TikTokLive real-time session engine against its
natural-language specification.

The definitions below are a shallow embedding of the Python source:

* `TikTokLive/client/ws/ws_client.py` (ack frames, the connect loop, the
  ping loop, cookie-string construction),
* `TikTokLive/client/ws/ws_utils.py` (URI construction, payload
  decompression dispatch, handshake-option extraction),
* `TikTokLive/client/ws/ws_connect.py` (inbound frame filtering),
* `TikTokLive/client/client.py` (event routing and the custom-event step,
  the start guard),
* `TikTokLive/client/errors.py` and
  `TikTokLive/client/web/routes/fetch_signed_websocket.py` (the
  rate-limit path of the signing handshake).

Machine strings are Lean `String`; byte strings are `List Nat`.  The
generated protocol-buffer parsers are external artefacts (they are not
part of the source tree), so parsing functions appear as parameters, and
the two wire records (`WebcastPushFrame`, `ProtoMessageFetchResult`) are
plain structures holding the fields the client code reads.
-/

namespace TikTokLive

/-- Byte strings, as lists of byte values. -/
abbrev Bytes := List Nat

/-- Model of Python `str.encode()` for the ASCII strings the client
encodes (ack payloads): each character becomes its code point. -/
def pyEncode (s : String) : Bytes :=
  s.data.map Char.toNat

/-- Substring test on character lists, used to model the Python `in`
operator on strings. -/
def containsSub (needle : List Char) : List Char → Bool
  | [] => needle.isEmpty
  | c :: rest => needle.isPrefixOf (c :: rest) || containsSub needle rest

/-- Model of Python `needle in hay` for strings. -/
def pyIn (needle hay : String) : Bool :=
  containsSub needle.data hay.data

/-- Split a character list at every occurrence of `c`. -/
def splitOnChar (c : Char) (l : List Char) : List (List Char) :=
  l.foldr
    (fun x acc =>
      match acc with
      | [] => [[x]]
      | cur :: rest => if x = c then [] :: cur :: rest else (x :: cur) :: rest)
    [[]]

/-- Drop leading and trailing spaces from a character list. -/
def trimChars (l : List Char) : List Char :=
  ((l.dropWhile (fun c => c = ' ')).reverse.dropWhile (fun c => c = ' ')).reverse

/-- Split a character list at the first `=` into a key and a value. -/
def splitKV (l : List Char) : Option (List Char × List Char) :=
  match l.span (fun c => decide (c ≠ '=')) with
  | (_, []) => none
  | (k, _ :: v) => some (k, v)

/-- Parse a cookie-style `key=value; key2=value2` string into key-value
pairs. Models the use of `http.cookies.SimpleCookie` in
`ws_utils.extract_websocket_options` for plain option strings (quoting
and cookie attributes do not occur in handshake options). -/
def parse_cookie_pairs (s : String) : List (String × String) :=
  (splitOnChar ';' s.data).filterMap fun part =>
    match splitKV (trimChars part) with
    | some (k, v) => some (String.mk (trimChars k), String.mk (trimChars v))
    | none => none

/-- Parse a decimal numeral from characters; `none` when empty or not all
digits. -/
def digitsToNat? (l : List Char) : Option Nat :=
  if l = [] ∨ l.any (fun c => decide (c.toNat < 48) || decide (57 < c.toNat)) then none
  else some (l.foldl (fun n c => 10 * n + (c.toNat - 48)) 0)

/-- Errors raised by the client (subset used by the claims), from
`TikTokLive/client/errors.py`. -/
inductive TikTokError where
  | initialCursorMissing
  | websocketURLMissing
  | alreadyConnected
  deriving DecidableEq

/-- Python runtime exceptions that surface from slips in the code. -/
inductive PyError where
  | typeError (msg : String)
  | valueError (msg : String)
  | attributeError (msg : String)
  deriving DecidableEq

/-- The outer binary envelope of every WebSocket message, from
`TikTokLive/proto/custom_extras.py` (`WebcastPushFrame`). Field defaults
mirror the betterproto zero values. `log_id` is an `Int` because the
handshake route constructs a frame with `log_id = -1`. -/
structure WebcastPushFrame where
  seq_id : Nat := 0
  log_id : Int := 0
  service : Nat := 0
  method : Nat := 0
  headers : List (String × String) := []
  payload_encoding : String := ""
  payload_type : String := ""
  payload : Bytes := []
  deriving DecidableEq

/-- One embedded message of a fetch-result envelope: a method tag
selecting the protobuf type, and the raw payload bytes. -/
structure ProtoMessageFetchResultBaseProtoMessage where
  method : String := ""
  payload : Bytes := []
  deriving DecidableEq

/-- The fetch-result envelope. The generated protobuf class is an
external artefact; this structure holds exactly the fields the client
code reads (`cursor`, `internal_ext`, `needs_ack`, `is_first`,
`push_server`, `route_params`, `messages`). -/
structure ProtoMessageFetchResult where
  cursor : String := ""
  internal_ext : String := ""
  needs_ack : Bool := false
  is_first : Bool := false
  push_server : String := ""
  route_params : List (String × String) := []
  messages : List ProtoMessageFetchResultBaseProtoMessage := []
  deriving DecidableEq

/-! ## Wire codec (`ws_utils.py`) -/

/-- Result of the decompression dispatch in
`ws_utils.extract_webcast_response_message`: which bytes are handed to
the envelope parser, and whether gzip inflation is applied first. -/
inductive ExtractResult where
  /-- Header missing or `compress_type` absent or equal to `none`:
  the payload is parsed directly (ws_utils.py:87-88). -/
  | parsedDirect (payload : Bytes)
  /-- A `compress_type` that is neither `none` nor `gzip`: an error is
  logged and the payload is parsed directly best-effort
  (ws_utils.py:91-93). -/
  | parsedDirectUnknownCompression (payload : Bytes)
  /-- `compress_type = gzip`: the payload is gzip-inflated before
  parsing (ws_utils.py:96-105). -/
  | parsedInflated (payload : Bytes)
  deriving DecidableEq

/-- Embedding of `ws_utils.extract_webcast_response_message`
(ws_utils.py:74-105): decide how the push-frame payload is decompressed
before the envelope parse. -/
def extract_webcast_response_message (push_frame : WebcastPushFrame) : ExtractResult :=
  if push_frame.headers = [] ∨ push_frame.headers.lookup "compress_type" = none
      ∨ push_frame.headers.lookup "compress_type" = some "none" then
    .parsedDirect push_frame.payload
  else if push_frame.headers.lookup "compress_type" ≠ some "gzip" then
    .parsedDirectUnknownCompression push_frame.payload
  else
    .parsedInflated push_frame.payload

/-- The bytes handed to the envelope parser, given an abstract gzip
inflater for the compressed case. -/
def decoded_payload (gunzip : Bytes → Bytes) (push_frame : WebcastPushFrame) : Bytes :=
  match extract_webcast_response_message push_frame with
  | .parsedDirect p => p
  | .parsedDirectUnknownCompression p => p
  | .parsedInflated p => gunzip p

/-- Python dict update `(base updated by new)`: keys of `base` keep their
order with values overridden by `new`; new keys are appended. -/
def dict_update (base new : List (String × String)) : List (String × String) :=
  base.map (fun kv => (kv.1, (new.lookup kv.1).getD kv.2))
    ++ new.filter (fun kv => (base.lookup kv.1).isNone)

/-- Embedding of `ws_utils.build_webcast_uri` (ws_utils.py:14-55):
validate the initial fetch-result and build the WebSocket URI string. -/
def build_webcast_uri (initial_webcast_response : ProtoMessageFetchResult)
    (base_uri_params : List (String × String)) (base_uri_append_str : String) :
    Except TikTokError String :=
  if initial_webcast_response.cursor = "" then
    .error .initialCursorMissing
  else if initial_webcast_response.push_server = "" then
    .error .websocketURLMissing
  else if initial_webcast_response.route_params = [] then
    .error .websocketURLMissing
  else
    let uri_params :=
      dict_update (dict_update initial_webcast_response.route_params base_uri_params)
        [("internal_ext", initial_webcast_response.internal_ext),
         ("cursor", initial_webcast_response.cursor)]
    .ok (initial_webcast_response.push_server ++ "?"
      ++ String.intercalate "&" (uri_params.map fun kv => kv.1 ++ "=" ++ kv.2)
      ++ base_uri_append_str)

/-- Embedding of `ws_utils.extract_websocket_options` (ws_utils.py:108-117):
parse the `Handshake-Options` response header as cookie-style pairs. -/
def extract_websocket_options (headers : List (String × String)) : List (String × String) :=
  parse_cookie_pairs ((headers.lookup "Handshake-Options").getD "")

/-! ## Session engine (`ws_client.py`, `ws_connect.py`) -/

/-- `WebcastWSClient.DEFAULT_PING_INTERVAL` (ws_client.py:20): the code
holds the float `1.0`; the value is integral so it is modelled in whole
seconds. -/
def DEFAULT_PING_INTERVAL : Nat := 1

/-- `WebcastWSClient.PING_MESSAGE` (ws_client.py:21): the base64 constant
`MgJwYjoCaGI=`, i.e. the bytes of `2\x02pb:\x02hb`. -/
def PING_MESSAGE : Bytes := [50, 2, 112, 98, 58, 2, 104, 98]

/-- Embedding of `WebcastWSClient.send_ack` (ws_client.py:90-117): the
list of frames written to the socket (empty when the socket is closed,
since acks are fire-and-forget). The payload is
`(internal_ext or "-").encode()`. -/
def send_ack (connected : Bool) (webcast_response : ProtoMessageFetchResult)
    (webcast_push_frame : WebcastPushFrame) : List WebcastPushFrame :=
  if connected = false then []
  else
    [{ payload_type := "ack",
       log_id := webcast_push_frame.log_id,
       payload := pyEncode
         (if webcast_response.internal_ext = "" then "-" else webcast_response.internal_ext) }]

/-- Observable actions of one iteration of the connect loop. -/
inductive WsAction where
  | restartPingLoop
  | sendFrame (frame : WebcastPushFrame)
  | yieldResponse (frame? : Option WebcastPushFrame) (response : ProtoMessageFetchResult)
  | raiseAttributeError
  deriving DecidableEq

/-- Embedding of the body of the `async for` loop in
`WebcastWSClient.connect` (ws_client.py:269-284), as the ordered list of
actions it performs for one `(push frame, fetch result)` pair. The push
frame is `none` only for the first, handshake-derived yield
(ws_connect.py:87-89); an ack for it would dereference `None.log_id`. -/
def connect_step (connected : Bool) (frame? : Option WebcastPushFrame)
    (webcast_response : ProtoMessageFetchResult) : List WsAction :=
  let ping_actions : List WsAction :=
    if webcast_response.is_first then [.restartPingLoop] else []
  match frame?, webcast_response.needs_ack with
  | some frame, true =>
      ping_actions ++ (send_ack connected webcast_response frame).map .sendFrame
        ++ [.yieldResponse (some frame) webcast_response]
  | none, true =>
      if connected then ping_actions ++ [.raiseAttributeError]
      else ping_actions ++ [.yieldResponse none webcast_response]
  | _, false =>
      ping_actions ++ [.yieldResponse frame? webcast_response]

/-- Embedding of the inbound handling in `WebcastConnect.__aiter__`
(ws_connect.py:92-105) composed with the connect-loop body: frames whose
`payload_type` is not `msg` are logged and skipped; `msg` frames are
decompressed, parsed (`parse` stands for the generated envelope parser)
and handed to the loop body. -/
def process_inbound_frame (gunzip : Bytes → Bytes)
    (parse : Bytes → ProtoMessageFetchResult) (connected : Bool)
    (frame : WebcastPushFrame) : List WsAction :=
  if frame.payload_type ≠ "msg" then []
  else connect_step connected (some frame) (parse (decoded_payload gunzip frame))

/-- The frames written to the socket among a list of actions. -/
def sent_frames (actions : List WsAction) : List WebcastPushFrame :=
  actions.filterMap fun a =>
    match a with
    | .sendFrame f => some f
    | _ => none

/-- Whether an action writes an ack frame. -/
def isAckSend (a : WsAction) : Bool :=
  match a with
  | .sendFrame f => f.payload_type == "ack"
  | _ => false

/-- Whether an action yields a pair to the router. -/
def isYield (a : WsAction) : Bool :=
  match a with
  | .yieldResponse _ _ => true
  | _ => false

/-- True when every ack in the action list comes after the yield. -/
def acks_only_after_yield (actions : List WsAction) : Bool :=
  match actions.findIdx? isAckSend, actions.findIdx? isYield with
  | some a, some y => decide (y < a)
  | _, _ => true

/-- True when every ack in the action list comes before the yield. -/
def acks_only_before_yield (actions : List WsAction) : Bool :=
  match actions.findIdx? isAckSend, actions.findIdx? isYield with
  | some a, some y => decide (a < y)
  | _, _ => true

/-- Embedding of a whole session iteration (`WebcastConnect.__init__`
builds the URI before any connection is attempted, ws_connect.py:39-47;
then the first yield and the inbound loop run): on a URI-construction
failure the error propagates and no action is ever performed. `inbound`
is the already-decoded stream of `(push frame, envelope)` pairs. -/
def connect_session (initial_webcast_response : ProtoMessageFetchResult)
    (base_uri_params : List (String × String)) (base_uri_append_str : String)
    (inbound : List (WebcastPushFrame × ProtoMessageFetchResult)) :
    Except TikTokError (List WsAction) :=
  match build_webcast_uri initial_webcast_response base_uri_params base_uri_append_str with
  | .error e => .error e
  | .ok _ =>
      .ok (connect_step true none initial_webcast_response
        ++ inbound.flatMap (fun p => connect_step true (some p.1) p.2))

/-- One step of the ping loop `WebcastWSClient._ping_loop_fn`
(ws_client.py:308-328): send `PING_MESSAGE`, sleep some seconds. -/
inductive PingAction where
  | send (message : Bytes)
  | sleep (seconds : Nat)
  deriving DecidableEq

/-- The sleep interval used by `_ping_loop_fn` (ws_client.py:325). The
handshake options extracted from the `Handshake-Options` header are in
scope on the connection object (ws_connect.py:84) but the loop sleeps
`self.DEFAULT_PING_INTERVAL` unconditionally. -/
def ping_loop_interval (ws_options : List (String × String)) : Nat :=
  DEFAULT_PING_INTERVAL

/-- The first `n` iterations of the ping loop, as a trace of actions. -/
def ping_loop_trace (ws_options : List (String × String)) : Nat → List PingAction
  | 0 => []
  | n + 1 =>
      .send PING_MESSAGE :: .sleep (ping_loop_interval ws_options) :: ping_loop_trace ws_options n

/-- Modelled from the spec: the heartbeat interval the specification
claims, namely the value of the `ping-interval` key of the
`Handshake-Options` response header when present, and 5 seconds
otherwise. (No code computes this; it exists to compare the spec against
`ping_loop_interval`.) -/
def spec_claimed_ping_interval (headers : List (String × String)) : Nat :=
  match (extract_websocket_options headers).lookup "ping-interval" with
  | some v =>
      match digitsToNat? v.data with
      | some n => n
      | none => 5
  | none => 5

/-! ## Event router (`client.py`) -/

/-- The `ControlAction` protobuf enum (`proto/custom_proto.py:266-271`). -/
inductive ControlAction where
  | CONTROL_ACTION_FALLBACK_UNKNOWN
  | CONTROL_ACTION_STREAM_PAUSED
  | CONTROL_ACTION_STREAM_UNPAUSED
  | CONTROL_ACTION_STREAM_ENDED
  | CONTROL_ACTION_STREAM_SUSPENDED
  deriving DecidableEq

/-- A parsed proto event, as far as `handle_custom_event` inspects it: a
`ControlEvent` carries an action; every other event is inspected through
`base_message.display_text.key`. -/
inductive ParsedProtoEvent where
  | control (action : ControlAction)
  | nonControl (display_text_key : String)
  deriving DecidableEq

/-- The synthetic events derivable by the custom-event step. -/
inductive SyntheticEvent where
  | liveEnd
  | livePause
  | liveUnpause
  | follow
  | share
  deriving DecidableEq

/-- Embedding of `TikTokLiveClient.handle_custom_event`
(client.py:414-449). Returns the derived synthetic event (if any) and
whether a disconnect task is scheduled. The two pause branches are
transcribed exactly as written: client.py:434 and client.py:436 both
compare against `ControlAction.CONTROL_ACTION_STREAM_PAUSED`, so the
`LiveUnpauseEvent` branch at client.py:437 is unreachable. -/
def handle_custom_event (event : ParsedProtoEvent) : Option SyntheticEvent × Bool :=
  match event with
  | .control action =>
      if action = .CONTROL_ACTION_STREAM_ENDED ∨ action = .CONTROL_ACTION_STREAM_SUSPENDED then
        (some .liveEnd, true)
      else if action = .CONTROL_ACTION_STREAM_PAUSED then
        (some .livePause, false)
      else if action = .CONTROL_ACTION_STREAM_PAUSED then
        (some .liveUnpause, false)
      else
        (none, false)
  | .nonControl key =>
      if pyIn "follow" key then (some .follow, false)
      else if pyIn "share" key then (some .share, false)
      else (none, false)

/-- The events `_parse_webcast_response_message` can return for one
embedded message. -/
inductive RouterEvent where
  | websocketResponse (msg : ProtoMessageFetchResultBaseProtoMessage)
  | unknownEvent (msg : ProtoMessageFetchResultBaseProtoMessage)
  | protoEvent (event : ParsedProtoEvent)
  | customEvent (event : SyntheticEvent)
  deriving DecidableEq

/-- Embedding of `TikTokLiveClient._parse_webcast_response_message`
(client.py:363-399). `event_mappings` stands for membership in the
generated `EVENT_MAPPINGS` registry (an external artefact);
`parse_event` stands for the generated protobuf parse of the payload,
with `none` modelling a parse exception. -/
def parse_webcast_response_message (event_mappings : String → Bool)
    (parse_event : String → Bytes → Option ParsedProtoEvent)
    (msg : ProtoMessageFetchResultBaseProtoMessage) : List RouterEvent :=
  let response_event := RouterEvent.websocketResponse msg
  if event_mappings msg.method = false then
    [response_event, .unknownEvent msg]
  else
    match parse_event msg.method msg.payload with
    | none => [response_event]
    | some proto_event =>
        match (handle_custom_event proto_event).1 with
        | some custom_event => [.customEvent custom_event, response_event, .protoEvent proto_event]
        | none => [response_event, .protoEvent proto_event]

/-- Event-shape tags, for stating dispatch-order claims. -/
inductive EventTag where
  | synthetic
  | rawEnvelope
  | proto
  | unknownTag
  deriving DecidableEq

/-- The tag of a router event. -/
def tagOf : RouterEvent → EventTag
  | .websocketResponse _ => .rawEnvelope
  | .unknownEvent _ => .unknownTag
  | .protoEvent _ => .proto
  | .customEvent _ => .synthetic

/-- The tags of the event list produced for one embedded message. -/
def message_event_tags (event_mappings : String → Bool)
    (parse_event : String → Bytes → Option ParsedProtoEvent)
    (msg : ProtoMessageFetchResultBaseProtoMessage) : List EventTag :=
  (parse_webcast_response_message event_mappings parse_event msg).map tagOf

/-! ## Public client start guard (`client.py:107-181`) -/

/-- Session-level state of a public client: whether the WebSocket is
connected (`WebcastWSClient.connected`, ws_client.py:58-67) and how many
session tasks are alive. -/
structure ClientState where
  ws_connected : Bool
  active_sessions : Nat
  deriving DecidableEq

/-- A freshly constructed client: no socket, no session task. -/
def initial_client : ClientState := { ws_connected := false, active_sessions := 0 }

/-- Client operations at the granularity of the single-threaded
cooperative scheduler: a `start` call, the moment a session task
finishes the WebSocket upgrade and the socket becomes open, and the
termination of a session task. The socket-open event is separate from
`start` because `start` only spawns the session task (client.py:173-179)
and the socket opens later, inside that task, when the handshake of
`WebcastConnect` completes (ws_client.py:235, ws_connect.py:82-83). -/
inductive ClientOp where
  | startOp
  | socketOpenOp
  | sessionEndOp
  deriving DecidableEq

/-- One public-client step. `start` (client.py:133-134) raises
`AlreadyConnectedError` when `self._ws.connected` holds — that property
is socket-openness (ws_client.py:58-67), not session existence — and
otherwise only spawns a new session task, leaving the socket state
untouched. The socket opens when a live session task completes the
upgrade; a session ending closes the socket and resolves its task. -/
def client_step (s : ClientState) : ClientOp → ClientState × Option TikTokError
  | .startOp =>
      if s.ws_connected then (s, some .alreadyConnected)
      else ({ s with active_sessions := s.active_sessions + 1 }, none)
  | .socketOpenOp =>
      if s.active_sessions = 0 then (s, none)
      else ({ s with ws_connected := true }, none)
  | .sessionEndOp =>
      ({ ws_connected := false, active_sessions := s.active_sessions - 1 }, none)

/-- Run a sequence of client operations from a state. -/
def run_client (s : ClientState) : List ClientOp → ClientState
  | [] => s
  | op :: ops => run_client (client_step s op).1 ops

/-! ## Signing handshake rate-limit path (`fetch_signed_websocket.py`,
`errors.py`) -/

/-- A signing-service HTTP response, as far as the route reads it. -/
structure HttpResponse where
  status_code : Nat := 200
  headers : List (String × String) := []
  body : Bytes := []
  deriving DecidableEq

/-- Shape of a Python callable signature: named positional parameters, a
possible `*args`, and required keyword-only parameters. -/
structure PySignature where
  pos_params : List String
  has_varargs : Bool
  kwonly_required : List String
  deriving DecidableEq

/-- Python argument binding for a call with `npos` positional arguments
and the given keyword names: raises `TypeError` when positional
arguments overflow or a required keyword-only parameter is missing. -/
def bind_call (sig : PySignature) (npos : Nat) (kwnames : List String) : Except PyError Unit :=
  if sig.has_varargs = false ∧ sig.pos_params.length < npos then
    .error (.typeError "too many positional arguments")
  else
    match sig.kwonly_required.find? (fun k => !(kwnames.contains k)) with
    | some k => .error (.typeError ("missing 1 required keyword-only argument: " ++ k))
    | none => .ok ()

/-- The signature of `SignatureRateLimitError.__init__` (errors.py:180):
`(self, api_message, *args, response)` with `response` keyword-only and
without a default. -/
def SignatureRateLimitError_init_sig : PySignature :=
  { pos_params := ["api_message"], has_varargs := true, kwonly_required := ["response"] }

/-- Model of Python `int(x)` on an optional string: `int(None)` is a
`TypeError`, a non-numeral is a `ValueError`. -/
def pyInt (x : Option String) : Except PyError Int :=
  match x with
  | none => .error (.typeError "int() argument must be a string or a number, not NoneType")
  | some s =>
      match digitsToNat? s.data with
      | some n => .ok (n : Int)
      | none => .error (.valueError "invalid literal for int()")

/-- Embedding of `SignatureRateLimitError.calculate_retry_after`
(errors.py:199-209): `int(response.headers.get("RateLimit-Remaining"))`. -/
def calculate_retry_after (response : HttpResponse) : Except PyError Int :=
  pyInt (response.headers.lookup "RateLimit-Remaining")

/-- `SignAPIError.ErrorReason` (errors.py:86-98). -/
inductive SignErrorReason where
  | RATE_LIMIT
  | CONNECT_ERROR
  | EMPTY_PAYLOAD
  | SIGN_NOT_200
  | EMPTY_COOKIES
  | PREMIUM_ENDPOINT
  | AUTHENTICATED_WS
  deriving DecidableEq

/-- How a signing-handshake attempt can fail. -/
inductive RouteFailure where
  /-- An uncaught Python exception escapes the route. -/
  | pyError (e : PyError)
  /-- A `SignAPIError` with the given reason is raised. -/
  | signError (reason : SignErrorReason)
  /-- A `SignatureRateLimitError` is raised, exposing `retry_after`. -/
  | rateLimit (retry_after : Int)
  deriving DecidableEq

/-- Embedding of the `raise SignatureRateLimitError(...)` site in
`FetchSignedWebSocketRoute.__call__` (fetch_signed_websocket.py:101-109):
the call passes four positional arguments (two rate-limit headers, the
server message and a format string) and no keyword arguments, then the
constructor binds against `SignatureRateLimitError_init_sig`. Only on a
successful binding would the constructed error expose
`calculate_retry_after response`. -/
def raise_signature_rate_limit (response : HttpResponse) : RouteFailure :=
  match bind_call SignatureRateLimitError_init_sig 4 [] with
  | .error e => .pyError e
  | .ok _ =>
      match calculate_retry_after response with
      | .error e => .pyError e
      | .ok n => .rateLimit n

/-- Embedding of the response checks in `FetchSignedWebSocketRoute.__call__`
(fetch_signed_websocket.py:96-121): status 429 raises through the
rate-limit constructor; an empty body raises `EMPTY_PAYLOAD`; any other
non-200 status raises `SIGN_NOT_200`; otherwise the route proceeds. -/
def fetch_signed_websocket_check (response : HttpResponse) : Except RouteFailure Unit :=
  if response.status_code = 429 then
    .error (raise_signature_rate_limit response)
  else if response.body = [] then
    .error (.signError .EMPTY_PAYLOAD)
  else if response.status_code ≠ 200 then
    .error (.signError .SIGN_NOT_200)
  else
    .ok ()

/-! ## Cookie string (`ws_client.get_ws_cookie_string`) -/

/-- The cookie pairs kept by `WebcastWSClient.get_ws_cookie_string`
(ws_client.py:148-152): when a non-empty `sessionid` cookie exists and
authentication is off, every cookie whose value contains the session id
is skipped. -/
def ws_cookie_pairs (cookies : List (String × String)) (authenticate_websocket : Bool) :
    List (String × String) :=
  let sid? := cookies.lookup "sessionid"
  cookies.filter fun kv =>
    !(match sid? with
      | some sid => sid != "" && !authenticate_websocket && pyIn sid kv.2
      | none => false)

/-- Embedding of `WebcastWSClient.get_ws_cookie_string`
(ws_client.py:131-176): raises `ValueError` when authentication is
requested without a `sessionid` cookie; otherwise joins the kept cookies
as `key=value;` entries separated by spaces. -/
def get_ws_cookie_string (cookies : List (String × String)) (authenticate_websocket : Bool) :
    Except PyError String :=
  if authenticate_websocket ∧ cookies.lookup "sessionid" = none then
    .error (.valueError "Session ID is required for WebSocket authentication.")
  else
    .ok (String.intercalate " "
      ((ws_cookie_pairs cookies authenticate_websocket).map fun kv => kv.1 ++ "=" ++ kv.2 ++ ";"))

/-! ## Theorems -/

/-- C6: for every push frame, decoding its fetch-result envelope
gzip-inflates the payload exactly when the `compress_type` header equals
`gzip`; when the header is missing or equals `none` the payload is
parsed directly; any other value is logged and the payload is parsed
directly best-effort. -/
theorem compress_type_dispatch (frame : WebcastPushFrame) :
    (extract_webcast_response_message frame = .parsedInflated frame.payload ↔
      frame.headers.lookup "compress_type" = some "gzip")
    ∧ (extract_webcast_response_message frame = .parsedDirect frame.payload ↔
      (frame.headers.lookup "compress_type" = none
        ∨ frame.headers.lookup "compress_type" = some "none"))
    ∧ (extract_webcast_response_message frame = .parsedDirectUnknownCompression frame.payload ↔
      (∃ v, frame.headers.lookup "compress_type" = some v ∧ v ≠ "none" ∧ v ≠ "gzip")) := by
  unfold extract_webcast_response_message
  rcases h : frame.headers.lookup "compress_type" with _ | v
  · simp [h]
  · have hne : frame.headers ≠ [] := by
      intro he
      rw [he] at h
      simp [List.lookup] at h
    by_cases hv1 : v = "none"
    · subst hv1
      simp [h, hne]
    · by_cases hv2 : v = "gzip"
      · subst hv2
        simp [h, hne]
      · simp [h, hne, hv1, hv2]

/-- C1: for every inbound push frame with `payload_type = "msg"`, an ack
frame is sent iff the decoded envelope has `needs_ack = true`; when
sent, exactly one ack is produced, with `payload_type = "ack"`, the
`log_id` of the enclosing push frame, and payload the encoded
`internal_ext` of the envelope, or the single byte `-` (code point 45)
when `internal_ext` is empty. -/
theorem msg_frame_ack_iff_needs_ack (gunzip : Bytes → Bytes)
    (parse : Bytes → ProtoMessageFetchResult) (frame : WebcastPushFrame)
    (h : frame.payload_type = "msg") :
    sent_frames (process_inbound_frame gunzip parse true frame) =
      (if (parse (decoded_payload gunzip frame)).needs_ack = true then
        [{ log_id := frame.log_id, payload_type := "ack",
           payload := pyEncode
             (if (parse (decoded_payload gunzip frame)).internal_ext = "" then "-"
              else (parse (decoded_payload gunzip frame)).internal_ext) }]
       else [])
    ∧ pyEncode "-" = [45] := by
  refine ⟨?_, by decide⟩
  unfold process_inbound_frame
  rw [h]
  simp only [ne_eq, not_true_eq_false, if_false]
  unfold connect_step send_ack sent_frames
  cases ha : (parse (decoded_payload gunzip frame)).needs_ack <;>
    cases hf : (parse (decoded_payload gunzip frame)).is_first <;>
      simp [ha, hf, List.filterMap_append]

/-- C8 counterexample: a msg frame whose envelope needs an ack, at which
the connect loop sends the ack strictly before yielding the pair to the
router, refuting that an ack is only ever sent after the yield. -/
theorem ack_after_yield_counterexample :
    acks_only_after_yield
      (process_inbound_frame id (fun _ => { needs_ack := true, internal_ext := "E" }) true
        { log_id := 42, payload_type := "msg", payload := [1] }) = false := by
  decide

/-- C8 (amended): for every pair handled by the connect loop, any ack
frame is sent strictly before the pair is yielded to the router, never
after. -/
theorem ack_sent_before_yield (connected : Bool) (frame? : Option WebcastPushFrame)
    (response : ProtoMessageFetchResult) :
    acks_only_before_yield (connect_step connected frame? response) = true := by
  unfold connect_step acks_only_before_yield send_ack
  cases frame? <;> cases ha : response.needs_ack <;>
    cases hf : response.is_first <;> cases connected <;>
      simp [ha, hf, isAckSend, isYield, List.findIdx?]

/-- Witness for C1: at a concrete msg frame with `log_id = 42` whose
envelope needs an ack and has `internal_ext = "E"`, exactly the single
expected ack frame is sent. -/
theorem msg_frame_ack_iff_needs_ack_witness :
    sent_frames (process_inbound_frame id (fun _ => { needs_ack := true, internal_ext := "E" }) true
        { log_id := 42, payload_type := "msg", payload := [1] }) =
      [{ log_id := 42, payload_type := "ack", payload := pyEncode "E" }]
    ∧ pyEncode "-" = [45] := by
  have h := msg_frame_ack_iff_needs_ack id
    (fun _ => { needs_ack := true, internal_ext := "E" })
    { log_id := 42, payload_type := "msg", payload := [1] } rfl
  exact ⟨h.1.trans (by decide), h.2⟩

/-- C2: in the custom-event step, a Control event with action
`STREAM_PAUSED` yields a LivePause synthetic event, but a Control event
with action `STREAM_UNPAUSED` yields no synthetic event at all: the
unpause branch at client.py:436 repeats the `STREAM_PAUSED` comparison,
so `LiveUnpauseEvent` is unreachable. -/
theorem stream_unpaused_yields_nothing :
    handle_custom_event (.control .CONTROL_ACTION_STREAM_UNPAUSED) = (none, false)
    ∧ handle_custom_event (.control .CONTROL_ACTION_STREAM_PAUSED) =
        (some .livePause, false) := by
  decide

/-- C3 counterexample: an embedded message whose method is not in the
event registry produces the event list `[raw envelope, Unknown]`, whose
tag sequence is not a contiguous sub-sequence of
`[synthetic, raw envelope, proto]`. -/
theorem dispatch_tags_counterexample :
    message_event_tags (fun m => m == "WebcastChatMessage") (fun _ _ => none)
        { method := "WebcastGoalUpdate", payload := [] } =
      [EventTag.rawEnvelope, EventTag.unknownTag]
    ∧ decide (message_event_tags (fun m => m == "WebcastChatMessage") (fun _ _ => none)
        { method := "WebcastGoalUpdate", payload := [] } <:+:
        [EventTag.synthetic, EventTag.rawEnvelope, EventTag.proto]) = false := by
  constructor
  · decide
  · decide

/-- C3 (amended): for every embedded message whose method is known to
the event registry, the produced event list is a contiguous
sub-sequence of `[synthetic, raw envelope, proto]`: the full triple when
a synthetic event applies, `[raw envelope, proto]` otherwise, and
`[raw envelope]` alone when parsing the proto payload fails; messages
with an unknown method instead produce `[raw envelope, Unknown]`. -/
theorem dispatch_tags_known_method (event_mappings : String → Bool)
    (parse_event : String → Bytes → Option ParsedProtoEvent)
    (msg : ProtoMessageFetchResultBaseProtoMessage)
    (h : event_mappings msg.method = true) :
    (message_event_tags event_mappings parse_event msg <:+:
      [EventTag.synthetic, EventTag.rawEnvelope, EventTag.proto])
    ∧ (parse_event msg.method msg.payload = none →
        message_event_tags event_mappings parse_event msg = [EventTag.rawEnvelope])
    ∧ (∀ e, parse_event msg.method msg.payload = some e →
        ((handle_custom_event e).1.isSome = true →
          message_event_tags event_mappings parse_event msg =
            [EventTag.synthetic, EventTag.rawEnvelope, EventTag.proto])
        ∧ ((handle_custom_event e).1 = none →
          message_event_tags event_mappings parse_event msg =
            [EventTag.rawEnvelope, EventTag.proto])) := by
  rcases hp : parse_event msg.method msg.payload with _ | e
  · have ht : message_event_tags event_mappings parse_event msg = [EventTag.rawEnvelope] := by
      unfold message_event_tags parse_webcast_response_message
      rw [h, hp]
      simp [tagOf]
    rw [ht]
    exact ⟨by decide, fun _ => rfl, fun x hx => absurd hx (by simp)⟩
  · rcases hc : (handle_custom_event e).1 with _ | k
    · have ht : message_event_tags event_mappings parse_event msg =
          [EventTag.rawEnvelope, EventTag.proto] := by
        unfold message_event_tags parse_webcast_response_message
        rw [h, hp]
        simp [tagOf, hc]
      rw [ht]
      refine ⟨by decide, fun hnone => absurd hnone (by simp), fun x hx => ?_⟩
      obtain rfl : e = x := by injection hx
      rw [hc]
      exact ⟨fun hs => by simp at hs, fun _ => rfl⟩
    · have ht : message_event_tags event_mappings parse_event msg =
          [EventTag.synthetic, EventTag.rawEnvelope, EventTag.proto] := by
        unfold message_event_tags parse_webcast_response_message
        rw [h, hp]
        simp [tagOf, hc]
      rw [ht]
      refine ⟨by decide, fun hnone => absurd hnone (by simp), fun x hx => ?_⟩
      obtain rfl : e = x := by injection hx
      rw [hc]
      exact ⟨fun _ => rfl, fun hn => by simp at hn⟩

/-- Witness for C3 (amended): a known-method message parsing to a
Control event with action `STREAM_PAUSED` produces exactly the tags
`[synthetic, raw envelope, proto]`. -/
theorem dispatch_tags_known_method_witness :
    message_event_tags (fun _ => true)
        (fun _ _ => some (.control .CONTROL_ACTION_STREAM_PAUSED))
        { method := "WebcastControlMessage", payload := [] } =
      [EventTag.synthetic, EventTag.rawEnvelope, EventTag.proto] :=
  ((dispatch_tags_known_method (fun _ => true)
      (fun _ _ => some (.control .CONTROL_ACTION_STREAM_PAUSED))
      { method := "WebcastControlMessage", payload := [] } rfl).2.2
    (.control .CONTROL_ACTION_STREAM_PAUSED) rfl).1 rfl

/-- C4: evaluating the code at a 429 signing-service response carrying
`RateLimit-Remaining: 7`. The raise site at
fetch_signed_websocket.py:101-109 passes only positional arguments, but
`SignatureRateLimitError.__init__` (errors.py:180) requires the
keyword-only argument `response`, so the handshake fails with a
`TypeError` instead of a `SignatureRateLimitError`; the intended
`calculate_retry_after` (errors.py:199-209) would read 7 from the
`RateLimit-Remaining` header. -/
theorem rate_limit_429_raises_type_error :
    fetch_signed_websocket_check
        { status_code := 429, headers := [("RateLimit-Remaining", "7")], body := [123] } =
      .error (.pyError (.typeError "missing 1 required keyword-only argument: response"))
    ∧ calculate_retry_after
        { status_code := 429, headers := [("RateLimit-Remaining", "7")], body := [123] } =
      .ok 7 :=
  ⟨rfl, rfl⟩

/-- C5 counterexample: with a `Handshake-Options: ping-interval=10`
response header, the ping loop still sleeps `DEFAULT_PING_INTERVAL = 1`
second, not the 10 seconds the claim requires (nor the claimed default
of 5 when the header is absent). -/
theorem ping_interval_counterexample :
    ping_loop_interval (extract_websocket_options
        [("Handshake-Options", "ping-interval=10")]) = 1
    ∧ spec_claimed_ping_interval [("Handshake-Options", "ping-interval=10")] = 10
    ∧ ping_loop_interval (extract_websocket_options []) = 1
    ∧ spec_claimed_ping_interval [] = 5
    ∧ (ping_loop_interval (extract_websocket_options
        [("Handshake-Options", "ping-interval=10")]) ==
        spec_claimed_ping_interval [("Handshake-Options", "ping-interval=10")]) = false := by
  refine ⟨rfl, by decide, rfl, rfl, by decide⟩

/-- C5 (amended): the heartbeat task sends `PING_MESSAGE` and sleeps
exactly `DEFAULT_PING_INTERVAL = 1` second between sends, for every
value of the extracted handshake options: the `ping-interval` key is
never consulted. -/
theorem ping_loop_fixed_interval (ws_options : List (String × String)) (n : Nat) :
    (ping_loop_trace ws_options n).all
      (fun a =>
        match a with
        | .send m => m == PING_MESSAGE
        | .sleep s => s == DEFAULT_PING_INTERVAL) = true := by
  induction n with
  | zero => rfl
  | succ k ih =>
      simp only [ping_loop_trace, List.all_cons, ih, Bool.and_true]
      simp [ping_loop_interval, DEFAULT_PING_INTERVAL, PING_MESSAGE]

/-- C7: for every initial fetch-result, the session fails before any
action with `InitialCursorMissing` exactly when the cursor is empty,
with `WebsocketURLMissing` exactly when the cursor is non-empty but the
push server or the route-params map is empty, and succeeds (producing
the action stream) exactly when all three are non-empty. -/
theorem uri_validation_trichotomy (r : ProtoMessageFetchResult)
    (bp : List (String × String)) (ap : String)
    (inbound : List (WebcastPushFrame × ProtoMessageFetchResult)) :
    (connect_session r bp ap inbound = .error .initialCursorMissing ↔ r.cursor = "")
    ∧ (connect_session r bp ap inbound = .error .websocketURLMissing ↔
        (r.cursor ≠ "" ∧ (r.push_server = "" ∨ r.route_params = [])))
    ∧ ((∃ acts, connect_session r bp ap inbound = .ok acts) ↔
        (r.cursor ≠ "" ∧ r.push_server ≠ "" ∧ r.route_params ≠ [])) := by
  unfold connect_session build_webcast_uri
  by_cases hc : r.cursor = ""
  · simp [hc]
  · by_cases hp : r.push_server = ""
    · simp [hc, hp]
    · by_cases hr : r.route_params = []
      · simp [hc, hp, hr]
      · simp [hc, hp, hr]

/-- An open socket implies at least one live session task, in every
state reachable from one satisfying the same property: the socket is
only opened by a live session task. -/
theorem run_client_conn_inv (ops : List ClientOp) (s : ClientState)
    (hs : s.ws_connected = true → 1 ≤ s.active_sessions) :
    (run_client s ops).ws_connected = true →
      1 ≤ (run_client s ops).active_sessions := by
  induction ops generalizing s with
  | nil => exact hs
  | cons op rest ih =>
      obtain ⟨c, a⟩ := s
      refine ih (client_step ⟨c, a⟩ op).1 ?_
      cases op
      case startOp =>
        cases c
        · intro hfalse
          simp [client_step] at hfalse
        · exact fun _ => hs rfl
      case socketOpenOp =>
        by_cases ha : a = 0
        · subst ha
          simpa [client_step] using hs
        · intro _
          simp [client_step, ha]
          omega
      case sessionEndOp =>
        intro hfalse
        simp [client_step] at hfalse

/-- C9 counterexample: two `start` calls issued before the first session
task opens its socket. Both pass the `self._ws.connected` guard (the
socket is not open yet), the second returns no error, and two session
tasks are active at once, refuting that at most one session task exists
and that a second `start` always fails while a session exists. -/
theorem second_start_in_handshake_window :
    run_client initial_client [ClientOp.startOp, ClientOp.startOp] =
      { ws_connected := false, active_sessions := 2 }
    ∧ (client_step (run_client initial_client [ClientOp.startOp]) .startOp).2 = none :=
  ⟨rfl, rfl⟩

/-- C9 (amended): a `start` call while the WebSocket is open fails with
the already-connected error and leaves the state unchanged, and an open
socket implies at least one live session task; but the guard reads
socket-openness, not session existence, so a `start` issued while the
socket is not yet open passes the guard and spawns one more session
task even when a session already exists. -/
theorem start_guard_socket_open (s : ClientState) (ops : List ClientOp) :
    (s.ws_connected = true →
      client_step s .startOp = (s, some TikTokError.alreadyConnected))
    ∧ (s.ws_connected = false →
      client_step s .startOp =
        ({ ws_connected := false, active_sessions := s.active_sessions + 1 }, none))
    ∧ ((run_client initial_client ops).ws_connected = true →
      1 ≤ (run_client initial_client ops).active_sessions) := by
  refine ⟨fun h => by simp [client_step, h], fun h => ?_, ?_⟩
  · obtain ⟨c, a⟩ := s
    simp only at h
    subst h
    simp [client_step]
  · exact run_client_conn_inv ops initial_client (by simp [initial_client])

/-- Witness for C9 (amended): the guard rejects a start on an open
socket, admits one on a closed socket (spawning a second session), and
after a start followed by the socket opening one session is live. -/
theorem start_guard_socket_open_witness :
    client_step { ws_connected := true, active_sessions := 1 } .startOp =
      ({ ws_connected := true, active_sessions := 1 }, some TikTokError.alreadyConnected)
    ∧ client_step { ws_connected := false, active_sessions := 1 } .startOp =
      ({ ws_connected := false, active_sessions := 2 }, none)
    ∧ 1 ≤ (run_client initial_client
        [ClientOp.startOp, ClientOp.socketOpenOp]).active_sessions :=
  ⟨(start_guard_socket_open { ws_connected := true, active_sessions := 1 } []).1 rfl,
   (start_guard_socket_open { ws_connected := false, active_sessions := 1 } []).2.1 rfl,
   (start_guard_socket_open { ws_connected := false, active_sessions := 0 }
      [ClientOp.startOp, ClientOp.socketOpenOp]).2.2 rfl⟩

/-- C10 counterexample: with the cookie jar
`[(sessionid, s), (se, 1)]` and authentication off, the produced cookie
string is `se=1;`, which contains the session id value `s` (through the
cookie name `se`), refuting that the returned string never contains the
session id value. -/
theorem ws_cookie_string_counterexample :
    get_ws_cookie_string [("sessionid", "s"), ("se", "1")] false = .ok "se=1;"
    ∧ pyIn "s" "se=1;" = true := by
  exact ⟨rfl, by decide⟩

/-- C10 (amended): with a non-empty `sessionid` cookie present and
`authenticate_websocket = false`, every cookie whose value contains the
session id is omitted from the WebSocket cookie pairs (so no included
value contains the session id, though the joined header string can still
contain it through cookie names); with `authenticate_websocket = true`
and no `sessionid` cookie, the call raises a `ValueError` instead of
returning a string. -/
theorem ws_cookie_filter_and_auth_error :
    (∀ (cookies : List (String × String)) (sid : String),
      cookies.lookup "sessionid" = some sid → sid ≠ "" →
        ∀ kv, kv ∈ ws_cookie_pairs cookies false → pyIn sid kv.2 = false)
    ∧ (∀ cookies : List (String × String), cookies.lookup "sessionid" = none →
        get_ws_cookie_string cookies true =
          .error (.valueError "Session ID is required for WebSocket authentication.")) := by
  constructor
  · intro cookies sid hsid hne kv hkv
    simp only [ws_cookie_pairs, hsid] at hkv
    have h := (List.mem_filter.mp hkv).2
    have hb : (sid != "") = true := bne_iff_ne.mpr hne
    simpa [hb] using h
  · intro cookies hnone
    unfold get_ws_cookie_string
    rw [hnone]
    simp

/-- Witness for C10 (amended): in the jar
`[(sessionid, s), (a, sx), (b, 1)]` the kept pair `(b, 1)` has a value
free of the session id, and a jar without `sessionid` makes the
authenticated call raise. -/
theorem ws_cookie_filter_and_auth_error_witness :
    pyIn "s" "1" = false
    ∧ get_ws_cookie_string [("a", "1")] true =
        .error (.valueError "Session ID is required for WebSocket authentication.") :=
  ⟨ws_cookie_filter_and_auth_error.1 [("sessionid", "s"), ("a", "sx"), ("b", "1")] "s"
      rfl (by decide) ("b", "1") (by decide),
   ws_cookie_filter_and_auth_error.2 [("a", "1")] rfl⟩

end TikTokLive
